import Mathlib

/-
Shallow embedding of the rag-agent-chatbot repository (four Python files:
main.py, fastapi_rag_agent.py, rag_agents.py, retrieving.py).

The repository composes three external hosted services: a text-embedding
service (cohere), a vector store (qdrant) and an agent runtime.  Those
services are modelled as oracles: functions from the request the code builds
to an `Except String` result, where `Except.error msg` models a raised Python
exception with message `msg` (what `str(e)` would show).  Each Python file is
embedded in its own Lean namespace (`Main`, `FastapiRag`, `RagAgents`,
`Retrieving`), since the four variants differ in error handling.

Embedding vectors are opaque to this code (it never inspects an entry, only
list emptiness), so definitions are polymorphic in the scalar type.
-/

/-- Python whitespace test (`str.strip` strips these ASCII characters;
the queries in scope are ASCII). -/
def pyIsSpace (c : Char) : Bool :=
  c = ' ' || c = '\t' || c = '\n' || c = '\r' || c = '\x0b' || c = '\x0c'

/-- Python `str.strip()`: drop leading and trailing whitespace. -/
def pyStrip (s : String) : String :=
  String.mk (((s.data.dropWhile pyIsSpace).reverse.dropWhile pyIsSpace).reverse)

/-- Python `x or d` where `x` is `result.final_output` (an `Optional[str]`):
`None` and the empty string are falsy and are replaced by the default. -/
def pyOrElse (o : Option String) (d : String) : String :=
  match o with
  | none => d
  | some s => if s.isEmpty then d else s

/-- Python falsiness of an `os.getenv` result: `None` (unset) or `""`. -/
def pyFalsyEnv : Option String → Bool
  | none => true
  | some s => s.isEmpty

/-- Python `xs[0]` on a list: `IndexError` when empty, else the head. -/
def pyIndex0 {β : Type} : List β → Except String β
  | [] => Except.error "IndexError: list index out of range"
  | x :: _ => Except.ok x

/-- Request built by `cohere_client.embed(model=..., input_type=..., texts=...)`. -/
structure EmbedRequest where
  model : String
  input_type : String
  texts : List String

/-- Response of the embedding service: a list of vectors, one per input text. -/
structure EmbedResponse (α : Type) where
  embeddings : List (List α)

/-- Request built by `qdrant_client.query_points(collection_name=..., query=..., limit=...)`. -/
structure QueryPointsRequest (α : Type) where
  collection_name : String
  query : List α
  limit : Nat

/-- A stored point returned by the vector store.  The code only ever reads the
string-valued "text" field of the payload, so the payload is modelled as a
string-keyed, string-valued association list. -/
structure Point where
  payload : List (String × String)
deriving DecidableEq

/-- Python `payload.get(k)` / `payload.get(k, default)` support: look the key up. -/
def Point.payloadGet (p : Point) (k : String) : Option String :=
  (p.payload.find? (fun kv => kv.1 = k)).map (fun kv => kv.2)

/-- Python `payload[k]`: `KeyError` when the key is missing. -/
def Point.payloadIndex (p : Point) (k : String) : Except String String :=
  match p.payloadGet k with
  | some v => Except.ok v
  | none => Except.error ("KeyError: " ++ k)

/-- Response of `query_points`: the matched points. -/
structure QueryResponse where
  points : List Point
deriving DecidableEq

/-- Oracle for the embedding service: may return a response or raise. -/
def CohereClient (α : Type) : Type :=
  EmbedRequest → Except String (EmbedResponse α)

/-- Oracle for the vector store: may return a response or raise. -/
def QdrantClient (α : Type) : Type :=
  QueryPointsRequest α → Except String QueryResponse

/-- Oracle for `Runner.run_sync(agent, input=query).final_output`: the agent
runtime may raise, or succeed with an `Optional[str]` final output. -/
def AgentRunner : Type :=
  String → Except String (Option String)

/-- Environment: `os.getenv` as a map from variable name to optional value. -/
def Env : Type := String → Option String

/-- The list-comprehension `[point.payload["text"] for point in result.points]`
shared by fastapi_rag_agent.py, rag_agents.py and retrieving.py: evaluated
left to right, raising `KeyError` at the first point missing the field. -/
def textsOfPoints : List Point → Except String (List String)
  | [] => Except.ok []
  | p :: ps =>
    match p.payloadIndex "text" with
    | Except.error e => Except.error e
    | Except.ok t =>
      match textsOfPoints ps with
      | Except.error e => Except.error e
      | Except.ok ts => Except.ok (t :: ts)

/-- The four environment variables read at startup, in source order
(main.py lines 26-39, fastapi_rag_agent.py lines 27-32). -/
def requiredEnvKeys : List String :=
  ["GEMINI_API_KEY", "COHERE_API_KEY", "QDRANT_URL", "QDRANT_API_KEY"]

/-- main.py `missing_vars` (lines 31-39): names of the required variables
whose value is unset or empty, in source order. -/
def Main.missing_vars (env : Env) : List String :=
  requiredEnvKeys.filter (fun key => pyFalsyEnv (env key))

/-- main.py module-init check (lines 41-42): raise RuntimeError when any
required variable is missing, else proceed. -/
def Main.startup (env : Env) : Except String Unit :=
  if (Main.missing_vars env).isEmpty then
    Except.ok ()
  else
    Except.error
      ("Missing required environment variables: "
        ++ String.intercalate ", " (Main.missing_vars env))

/-- fastapi_rag_agent.py module-init check (lines 32-33):
`if not all([GEMINI_API_KEY, COHERE_API_KEY, QDRANT_URL, QDRANT_API_KEY])`
raise ValueError, else proceed. -/
def FastapiRag.startup (env : Env) : Except String Unit :=
  if (requiredEnvKeys.map env).all (fun v => !(pyFalsyEnv v)) then
    Except.ok ()
  else
    Except.error "Missing required environment variables"

/-- main.py `get_embedding` (lines 58-68): build the embed request with the
fixed model, `input_type="search_query"` and the singleton `texts=[text]`;
return `response.embeddings[0]`.  The whole body is wrapped in
try/except returning `[]`, which also catches the IndexError from `[0]`. -/
def Main.get_embedding {α : Type} (cohere : CohereClient α) (text : String) : List α :=
  match cohere ⟨"embed-english-v3.0", "search_query", [text]⟩ with
  | Except.error _ => []
  | Except.ok response =>
    match pyIndex0 response.embeddings with
    | Except.error _ => []
    | Except.ok v => v

/-- fastapi_rag_agent.py `get_embedding` (lines 53-59): same request, no
try/except, so a service failure or an empty response propagates. -/
def FastapiRag.get_embedding {α : Type} (cohere : CohereClient α) (text : String) :
    Except String (List α) :=
  match cohere ⟨"embed-english-v3.0", "search_query", [text]⟩ with
  | Except.error e => Except.error e
  | Except.ok response => pyIndex0 response.embeddings

/-- rag_agents.py `get_embedding` (lines 52-59): identical to the
fastapi_rag_agent.py version. -/
def RagAgents.get_embedding {α : Type} (cohere : CohereClient α) (text : String) :
    Except String (List α) :=
  match cohere ⟨"embed-english-v3.0", "search_query", [text]⟩ with
  | Except.error e => Except.error e
  | Except.ok response => pyIndex0 response.embeddings

/-- retrieving.py `get_embedding` (lines 12-19): identical body again. -/
def Retrieving.get_embedding {α : Type} (cohere : CohereClient α) (text : String) :
    Except String (List α) :=
  match cohere ⟨"embed-english-v3.0", "search_query", [text]⟩ with
  | Except.error e => Except.error e
  | Except.ok response => pyIndex0 response.embeddings

/-- main.py `retrieve` (lines 77-91).  Inside try/except returning `[]`:
`get_embedding` (which itself never raises), an early `return []` on a falsy
(empty) embedding, then `query_points` on the fixed collection with limit 5,
then a comprehension over `point.payload.get("text", "")` (which cannot
raise).  The only raise point inside the try is the `query_points` call, so
the except-branch is exactly the error branch of that match. -/
def Main.retrieve {α : Type} (cohere : CohereClient α) (qdrant : QdrantClient α)
    (query : String) : List String :=
  let embedding := Main.get_embedding cohere query
  if embedding.isEmpty then
    []
  else
    match qdrant ⟨"humanoid_ai_book", embedding, 5⟩ with
    | Except.error _ => []
    | Except.ok result =>
      result.points.map (fun point => (point.payloadGet "text").getD "")

/-- fastapi_rag_agent.py `retrieve` (lines 73-80): no try/except; embedding
failure, store failure and a missing "text" key all propagate. -/
def FastapiRag.retrieve {α : Type} (cohere : CohereClient α) (qdrant : QdrantClient α)
    (query : String) : Except String (List String) :=
  match FastapiRag.get_embedding cohere query with
  | Except.error e => Except.error e
  | Except.ok embedding =>
    match qdrant ⟨"humanoid_ai_book", embedding, 5⟩ with
    | Except.error e => Except.error e
    | Except.ok result => textsOfPoints result.points

/-- rag_agents.py `retrieve` (lines 73-83): identical to the
fastapi_rag_agent.py version. -/
def RagAgents.retrieve {α : Type} (cohere : CohereClient α) (qdrant : QdrantClient α)
    (query : String) : Except String (List String) :=
  match RagAgents.get_embedding cohere query with
  | Except.error e => Except.error e
  | Except.ok embedding =>
    match qdrant ⟨"humanoid_ai_book", embedding, 5⟩ with
    | Except.error e => Except.error e
    | Except.ok result => textsOfPoints result.points

/-- retrieving.py `retrieve` (lines 21-28): identical body again. -/
def Retrieving.retrieve {α : Type} (cohere : CohereClient α) (qdrant : QdrantClient α)
    (query : String) : Except String (List String) :=
  match Retrieving.get_embedding cohere query with
  | Except.error e => Except.error e
  | Except.ok embedding =>
    match qdrant ⟨"humanoid_ai_book", embedding, 5⟩ with
    | Except.error e => Except.error e
    | Except.ok result => textsOfPoints result.points

/-- Response of the POST /ask endpoint: a normal JSON body
(answer is null when final_output is None), or an HTTPException. -/
inductive AskResponse where
  | answer (value : Option String)
  | httpError (status : Nat) (detail : String)
deriving DecidableEq

/-- main.py `ask_agent` (lines 130-139).  Inside try/except: short-circuit a
whitespace-only query with a canned answer (string ops cannot raise), run the
agent, apply the `or "I don't know"` fallback.  The except branch raises
HTTPException(500) with a fixed detail string; only the runner can raise. -/
def Main.ask_agent (runner : AgentRunner) (query : String) : AskResponse :=
  if pyStrip query = "" then
    AskResponse.answer (some "Query is empty.")
  else
    match runner query with
    | Except.ok finalOutput =>
      AskResponse.answer (some (pyOrElse finalOutput "I don't know"))
    | Except.error _ =>
      AskResponse.httpError 500 "Internal server error. Check backend logs."

/-- fastapi_rag_agent.py `ask_agent` (lines 107-113): no emptiness check and
no fallback; on failure raises HTTPException(500, detail=str(e)). -/
def FastapiRag.ask_agent (runner : AgentRunner) (query : String) : AskResponse :=
  match runner query with
  | Except.ok finalOutput => AskResponse.answer finalOutput
  | Except.error e => AskResponse.httpError 500 e

/-- JSON body of GET /. -/
structure RootResponse where
  message : String
deriving DecidableEq

/-- main.py `root` (lines 141-143): constant body; FastAPI returns a plain
dict with the default status 200. -/
def Main.root : Nat × RootResponse :=
  (200, ⟨"Humanoid AI RAG Agent is running"⟩)

/-- fastapi_rag_agent.py `root` (lines 115-117): identical. -/
def FastapiRag.root : Nat × RootResponse :=
  (200, ⟨"Humanoid AI RAG Agent is running"⟩)

/-- Concrete embedding oracle that always raises. -/
def errCohereBoom : CohereClient Int := fun _ => Except.error "cohere down"

/-- Concrete vector-store oracle that always raises. -/
def errQdrantBoom : QdrantClient Int := fun _ => Except.error "qdrant down"

/-- Concrete embedding oracle returning the single vector [1]. -/
def okCohereOne : CohereClient Int := fun _ => Except.ok ⟨[[1]]⟩

/-- Concrete vector-store oracle returning one point whose payload has no
"text" field. -/
def okQdrantNoText : QdrantClient Int := fun _ => Except.ok ⟨[⟨[("other", "v")]⟩]⟩

/-- Concrete vector-store oracle returning no points. -/
def okQdrantEmpty : QdrantClient Int := fun _ => Except.ok ⟨[]⟩

/-- Concrete embedding oracle that succeeds with an empty embeddings list
(so indexing element 0 raises IndexError). -/
def okCohereNoVectors : CohereClient Int := fun _ => Except.ok ⟨[]⟩

/-- Concrete environment with every variable set to a non-empty value. -/
def goodEnv : Env := fun _ => some "x"

/-- Concrete environment with every variable unset. -/
def badEnv : Env := fun _ => none

/-- Claim C1 (amended to main.py, whose lines the failure policy describes):
in main.py, if the embedding call raises, or the vector-search call made with
the computed embedding raises, `retrieve` returns the empty list.  The claim
as frozen also covers rag_agents.py's `retrieve`, which has no try/except and
propagates the exception (see the counterexample). -/
theorem c1_main_retrieve_failure_yields_empty {α : Type}
    (cohere : CohereClient α) (qdrant : QdrantClient α) (query e : String) :
    (cohere ⟨"embed-english-v3.0", "search_query", [query]⟩ = Except.error e →
      Main.retrieve cohere qdrant query = []) ∧
    (qdrant ⟨"humanoid_ai_book", Main.get_embedding cohere query, 5⟩ = Except.error e →
      Main.retrieve cohere qdrant query = []) := by
  constructor
  · intro h
    simp [Main.retrieve, Main.get_embedding, h]
  · intro h
    by_cases hemp : (Main.get_embedding cohere query).isEmpty
    · simp [Main.retrieve, hemp]
    · simp [Main.retrieve, hemp, h]

/-- Witness for C1: with both services down, main.py's retrieve returns []. -/
theorem c1_witness :
    Main.retrieve errCohereBoom errQdrantBoom "q" = [] :=
  (c1_main_retrieve_failure_yields_empty errCohereBoom errQdrantBoom "q" "cohere down").1 rfl

/-- Counterexample for C1 as frozen: rag_agents.py's `retrieve` (also cited by
the claim) propagates the embedding failure instead of returning []. -/
theorem c1_counterexample :
    RagAgents.retrieve errCohereBoom errQdrantBoom "q" = Except.error "cohere down" ∧
    RagAgents.retrieve errCohereBoom errQdrantBoom "q" ≠ Except.ok [] := by
  refine ⟨rfl, ?_⟩
  intro h
  simp [RagAgents.retrieve, RagAgents.get_embedding, errCohereBoom] at h

/-- Claim C2 (amended to main.py): when the vector search succeeds, main.py's
`retrieve` returns one entry per returned point, reading the "text" payload
field with default "" — a point with no "text" field contributes the empty
string and the list keeps its full length.  The claim as frozen also covers
fastapi_rag_agent.py's `retrieve`, which indexes `payload["text"]` and raises
KeyError on a missing field (see the counterexample). -/
theorem c2_main_missing_text_degrades {α : Type}
    (cohere : CohereClient α) (qdrant : QdrantClient α) (query : String)
    (resp : QueryResponse)
    (hne : (Main.get_embedding cohere query).isEmpty = false)
    (hq : qdrant ⟨"humanoid_ai_book", Main.get_embedding cohere query, 5⟩ = Except.ok resp) :
    Main.retrieve cohere qdrant query =
      resp.points.map (fun point => (point.payloadGet "text").getD "") ∧
    (Main.retrieve cohere qdrant query).length = resp.points.length := by
  have hmain : Main.retrieve cohere qdrant query =
      resp.points.map (fun point => (point.payloadGet "text").getD "") := by
    simp [Main.retrieve, hne, hq]
  exact ⟨hmain, by rw [hmain, List.length_map]⟩

/-- Witness for C2: a point lacking "text" yields the entry "". -/
theorem c2_witness :
    Main.retrieve okCohereOne okQdrantNoText "q" = [""] :=
  ((c2_main_missing_text_degrades okCohereOne okQdrantNoText "q"
      ⟨[⟨[("other", "v")]⟩]⟩ rfl rfl).1).trans rfl

/-- Counterexample for C2 as frozen: fastapi_rag_agent.py's `retrieve` (also
cited by the claim) fails the whole call with KeyError on a point whose
payload has no "text" field, instead of substituting "". -/
theorem c2_counterexample :
    FastapiRag.retrieve okCohereOne okQdrantNoText "q" = Except.error "KeyError: text" ∧
    FastapiRag.retrieve okCohereOne okQdrantNoText "q" ≠ Except.ok [""] := by
  refine ⟨rfl, ?_⟩
  intro h
  rw [show FastapiRag.retrieve okCohereOne okQdrantNoText "q"
        = Except.error "KeyError: text" from rfl] at h
  exact absurd h (by simp)

/-- Claim C3 (amended to main.py): a query that strips to empty gets the
canned answer, and the response does not depend on the agent runner at all
(the agent is never invoked).  The claim as frozen also covers
fastapi_rag_agent.py's endpoint, which has no emptiness check and runs the
agent on a whitespace-only query (see the counterexample). -/
theorem c3_main_whitespace_short_circuit (runner : AgentRunner) (query : String)
    (h : pyStrip query = "") :
    Main.ask_agent runner query = AskResponse.answer (some "Query is empty.") ∧
    ∀ runner2 : AgentRunner, Main.ask_agent runner query = Main.ask_agent runner2 query := by
  constructor
  · simp [Main.ask_agent, h]
  · intro runner2
    simp [Main.ask_agent, h]

/-- Witness for C3: a three-space query gets the canned answer even under a
runner that would answer something else. -/
theorem c3_witness :
    Main.ask_agent (fun _ => Except.ok (some "agent ran")) "   "
      = AskResponse.answer (some "Query is empty.") :=
  (c3_main_whitespace_short_circuit (fun _ => Except.ok (some "agent ran")) "   "
    (by decide)).1

/-- Counterexample for C3 as frozen: on fastapi_rag_agent.py's endpoint (also
cited by the claim) a whitespace-only query is passed straight to the agent
runner and its output is returned, not the canned answer. -/
theorem c3_counterexample :
    FastapiRag.ask_agent (fun _ => Except.ok (some "agent ran")) "   "
      = AskResponse.answer (some "agent ran") ∧
    FastapiRag.ask_agent (fun _ => Except.ok (some "agent ran")) "   "
      ≠ AskResponse.answer (some "Query is empty.") := by
  exact ⟨rfl, by decide⟩

/-- The comprehension over points preserves the number of points when it
succeeds. -/
theorem textsOfPoints_length (ps : List Point) (l : List String)
    (h : textsOfPoints ps = Except.ok l) : l.length = ps.length := by
  induction ps generalizing l with
  | nil =>
    simp [textsOfPoints] at h
    simp [← h]
  | cons p ps ih =>
    rw [textsOfPoints] at h
    cases hp : p.payloadIndex "text" with
    | error e => rw [hp] at h; exact absurd h (by simp)
    | ok t =>
      rw [hp] at h
      cases ht : textsOfPoints ps with
      | error e => rw [ht] at h; exact absurd h (by simp)
      | ok ts =>
        rw [ht] at h
        injection h with h2
        subst h2
        simp [ih ts ht]

/-- Claim C4: both retrieve variants query the vector store only at requests
with collection "humanoid_ai_book" and limit 5, and when the store honours
the limit it passed, the returned snippet list has length at most 5. -/
theorem c4_retrieve_at_most_five {α : Type}
    (cohere : CohereClient α) (qdrant : QdrantClient α) (query : String)
    (_hq : query ≠ "")
    (hlim : ∀ req resp, qdrant req = Except.ok resp → resp.points.length ≤ req.limit) :
    (Main.retrieve cohere qdrant query).length ≤ 5 ∧
    (∀ l, FastapiRag.retrieve cohere qdrant query = Except.ok l → l.length ≤ 5) ∧
    (∀ qdrant2 : QdrantClient α,
      (∀ req, req.collection_name = "humanoid_ai_book" → req.limit = 5 →
        qdrant req = qdrant2 req) →
      Main.retrieve cohere qdrant query = Main.retrieve cohere qdrant2 query ∧
      FastapiRag.retrieve cohere qdrant query = FastapiRag.retrieve cohere qdrant2 query) := by
  refine ⟨?_, ?_, ?_⟩
  · by_cases hemp : (Main.get_embedding cohere query).isEmpty
    · simp [Main.retrieve, hemp]
    · cases hres : qdrant ⟨"humanoid_ai_book", Main.get_embedding cohere query, 5⟩ with
      | error e => simp [Main.retrieve, hemp, hres]
      | ok resp =>
        have hb := hlim _ _ hres
        simp only [Main.retrieve, hemp, Bool.false_eq_true, if_false, hres,
          List.length_map]
        simpa using hb
  · intro l hl
    cases he : FastapiRag.get_embedding cohere query with
    | error e => simp [FastapiRag.retrieve, he] at hl
    | ok emb =>
      simp only [FastapiRag.retrieve, he] at hl
      cases hres : qdrant ⟨"humanoid_ai_book", emb, 5⟩ with
      | error e => simp [hres] at hl
      | ok resp =>
        simp only [hres] at hl
        have hlen := textsOfPoints_length resp.points l hl
        have hb : resp.points.length ≤ 5 := hlim _ _ hres
        omega
  · intro qdrant2 hagree
    have h2 := hagree ⟨"humanoid_ai_book", Main.get_embedding cohere query, 5⟩ rfl rfl
    constructor
    · simp [Main.retrieve, h2]
    · cases he : FastapiRag.get_embedding cohere query with
      | error e => simp [FastapiRag.retrieve, he]
      | ok emb =>
        simp only [FastapiRag.retrieve, he]
        rw [hagree ⟨"humanoid_ai_book", emb, 5⟩ rfl rfl]

/-- Witness for C4: with a store returning no points, the snippet list has
length 0 ≤ 5. -/
theorem c4_witness :
    (Main.retrieve okCohereOne okQdrantEmpty "q").length ≤ 5 :=
  (c4_retrieve_at_most_five okCohereOne okQdrantEmpty "q" (by decide)
    (fun req resp h => by cases h; simp)).1

/-- Claim C5 (amended to main.py): when the agent runner raises on a
non-whitespace query, main.py's endpoint answers HTTP 500 with the fixed
detail string "Internal server error. Check backend logs.", which does not
depend on the exception's message.  The claim as frozen also covers
fastapi_rag_agent.py's endpoint, whose detail is str(e) and therefore leaks
the exception contents (see the counterexample). -/
theorem c5_main_internal_error_generic (runner : AgentRunner) (query e : String)
    (hq : ¬ pyStrip query = "")
    (hr : runner query = Except.error e) :
    Main.ask_agent runner query
      = AskResponse.httpError 500 "Internal server error. Check backend logs." := by
  simp [Main.ask_agent, hq, hr]

/-- Witness for C5: a raising runner on the query "hi" yields the generic
500 response. -/
theorem c5_witness :
    Main.ask_agent (fun _ => Except.error "ConnectionError: secret internals") "hi"
      = AskResponse.httpError 500 "Internal server error. Check backend logs." :=
  c5_main_internal_error_generic
    (fun _ => Except.error "ConnectionError: secret internals") "hi"
    "ConnectionError: secret internals" (by decide) rfl

/-- Counterexample for C5 as frozen: fastapi_rag_agent.py's endpoint (also
cited by the claim) puts str(e) in the 500 detail, so the response body
reproduces the underlying exception's contents and varies with them. -/
theorem c5_counterexample :
    FastapiRag.ask_agent (fun _ => Except.error "ConnectionError: secret internals") "hi"
      = AskResponse.httpError 500 "ConnectionError: secret internals" ∧
    FastapiRag.ask_agent (fun _ => Except.error "another cause") "hi"
      = AskResponse.httpError 500 "another cause" :=
  ⟨rfl, rfl⟩

/-- The missing-variables list of main.py is empty exactly when every
required variable is set and non-empty. -/
theorem missing_vars_nil_iff (env : Env) :
    Main.missing_vars env = [] ↔ ∀ k ∈ requiredEnvKeys, pyFalsyEnv (env k) = false := by
  simp [Main.missing_vars, List.filter_eq_nil_iff]

/-- The all-check of fastapi_rag_agent.py passes exactly when every required
variable is set and non-empty. -/
theorem fastapi_all_iff (env : Env) :
    ((requiredEnvKeys.map env).all (fun v => !(pyFalsyEnv v)) = true)
      ↔ ∀ k ∈ requiredEnvKeys, pyFalsyEnv (env k) = false := by
  simp [List.all_eq_true]

/-- Claim C6: when every one of the four required variables is set and
non-empty, both module initialisations succeed; when any is unset or empty,
both raise before the app is built. -/
theorem c6_env_check (env : Env) :
    ((∀ k ∈ requiredEnvKeys, pyFalsyEnv (env k) = false) →
      Main.startup env = Except.ok () ∧ FastapiRag.startup env = Except.ok ()) ∧
    ((∃ k ∈ requiredEnvKeys, pyFalsyEnv (env k) = true) →
      (∃ msg, Main.startup env = Except.error msg) ∧
      (∃ msg, FastapiRag.startup env = Except.error msg)) := by
  constructor
  · intro hall
    constructor
    · have h := (missing_vars_nil_iff env).2 hall
      simp [Main.startup, h]
    · have h := (fastapi_all_iff env).2 hall
      simp [FastapiRag.startup, h]
  · rintro ⟨k, hk, hfalsy⟩
    constructor
    · have h : ¬ Main.missing_vars env = [] := by
        intro h0
        have hf := (missing_vars_nil_iff env).1 h0 k hk
        rw [hfalsy] at hf
        exact absurd hf (by simp)
      refine ⟨"Missing required environment variables: "
        ++ String.intercalate ", " (Main.missing_vars env), ?_⟩
      simp [Main.startup, h]
    · have h : ¬ ((requiredEnvKeys.map env).all (fun v => !(pyFalsyEnv v)) = true) := by
        intro h0
        have hf := (fastapi_all_iff env).1 h0 k hk
        rw [hfalsy] at hf
        exact absurd hf (by simp)
      refine ⟨"Missing required environment variables", ?_⟩
      simp [FastapiRag.startup, h]

/-- Witness for C6: a fully populated environment starts both variants, and a
fully unset one aborts main.py's init. -/
theorem c6_witness :
    (Main.startup goodEnv = Except.ok () ∧ FastapiRag.startup goodEnv = Except.ok ()) ∧
    (∃ msg, Main.startup badEnv = Except.error msg) :=
  ⟨(c6_env_check goodEnv).1 (fun k _ => rfl),
   ((c6_env_check badEnv).2 ⟨"GEMINI_API_KEY", by simp [requiredEnvKeys], rfl⟩).1⟩

/-- Claim C7: GET / on both variants is the constant body
message = "Humanoid AI RAG Agent is running" with status 200; the handlers
take no client as input, so the result cannot depend on downstream state. -/
theorem c7_root_constant :
    Main.root = (200, ⟨"Humanoid AI RAG Agent is running"⟩) ∧
    FastapiRag.root = (200, ⟨"Humanoid AI RAG Agent is running"⟩) :=
  ⟨rfl, rfl⟩

/-- Claim C8: get_embedding calls the embedding service with mode
"search_query" and the singleton list [text] (its result depends only on the
oracle's behaviour at such requests), and on success it returns exactly the
first vector of the response. -/
theorem c8_get_embedding_contract {α : Type} (cohere : CohereClient α) (text : String) :
    (∀ resp v vs,
      cohere ⟨"embed-english-v3.0", "search_query", [text]⟩ = Except.ok resp →
      resp.embeddings = v :: vs →
      Retrieving.get_embedding cohere text = Except.ok v ∧
      Main.get_embedding cohere text = v) ∧
    (∀ cohere2 : CohereClient α,
      (∀ req, req.input_type = "search_query" → req.texts = [text] →
        cohere req = cohere2 req) →
      Retrieving.get_embedding cohere text = Retrieving.get_embedding cohere2 text ∧
      Main.get_embedding cohere text = Main.get_embedding cohere2 text) := by
  constructor
  · intro resp v vs hok hemb
    constructor
    · simp [Retrieving.get_embedding, hok, hemb, pyIndex0]
    · simp [Main.get_embedding, hok, hemb, pyIndex0]
  · intro cohere2 hagree
    have h := hagree ⟨"embed-english-v3.0", "search_query", [text]⟩ rfl rfl
    exact ⟨by simp [Retrieving.get_embedding, h], by simp [Main.get_embedding, h]⟩

/-- Witness for C8: an oracle answering with the vector list [[1]] makes both
get_embedding variants return the first vector [1]. -/
theorem c8_witness :
    Retrieving.get_embedding okCohereOne "q" = Except.ok [1] ∧
    Main.get_embedding okCohereOne "q" = [1] :=
  (c8_get_embedding_contract okCohereOne "q").1 ⟨[[1]]⟩ [1] [] rfl rfl

/-- Claim C9: in main.py, when the embedding comes back empty, retrieve
returns [] and its result does not depend on the vector-store client at all
(the store is never queried on that path). -/
theorem c9_empty_embedding_skips_store {α : Type}
    (cohere : CohereClient α) (qdrant : QdrantClient α) (query : String)
    (h : Main.get_embedding cohere query = []) :
    Main.retrieve cohere qdrant query = [] ∧
    ∀ qdrant2 : QdrantClient α,
      Main.retrieve cohere qdrant query = Main.retrieve cohere qdrant2 query := by
  constructor
  · simp [Main.retrieve, h]
  · intro qdrant2
    simp [Main.retrieve, h]

/-- Witness for C9: with an embedding service returning no vectors, retrieve
is [] even under a store oracle that would raise, and swapping store oracles
changes nothing. -/
theorem c9_witness :
    Main.retrieve okCohereNoVectors errQdrantBoom "q" = [] ∧
    Main.retrieve okCohereNoVectors errQdrantBoom "q"
      = Main.retrieve okCohereNoVectors okQdrantEmpty "q" :=
  ⟨(c9_empty_embedding_skips_store okCohereNoVectors errQdrantBoom "q" rfl).1,
   (c9_empty_embedding_skips_store okCohereNoVectors errQdrantBoom "q" rfl).2 okQdrantEmpty⟩

/-- The or-fallback applied in main.py never produces the empty string when
the default is non-empty. -/
theorem pyOrElse_ne_empty (o : Option String) (d : String) (hd : d ≠ "") :
    pyOrElse o d ≠ "" := by
  cases o with
  | none => simpa [pyOrElse] using hd
  | some s =>
    by_cases hs : s.isEmpty
    · simpa [pyOrElse, hs] using hd
    · simp only [pyOrElse, hs, Bool.false_eq_true, if_false]
      intro h
      rw [h] at hs
      exact absurd hs (by decide)

/-- Claim C10: on main.py's endpoint, a successful agent run whose final
output is None or "" is answered with the literal "I don't know"; and every
normal JSON answer the endpoint produces is a non-null, non-empty string. -/
theorem c10_fallback_nonempty_answer (runner : AgentRunner) (query : String) :
    (∀ o, runner query = Except.ok o → (o = none ∨ o = some "") →
      pyStrip query ≠ "" →
      Main.ask_agent runner query = AskResponse.answer (some "I don't know")) ∧
    (∀ a, Main.ask_agent runner query = AskResponse.answer a →
      ∃ s, a = some s ∧ s ≠ "") := by
  constructor
  · intro o ho hfalsy hqs
    rcases hfalsy with rfl | rfl <;> simp [Main.ask_agent, hqs, ho, pyOrElse] <;> decide
  · intro a ha
    by_cases hqs : pyStrip query = ""
    · simp only [Main.ask_agent, hqs, if_pos] at ha
      cases ha
      exact ⟨_, rfl, by decide⟩
    · simp only [Main.ask_agent, hqs, if_neg] at ha
      cases hr : runner query with
      | error e => simp [hr] at ha
      | ok o =>
        simp only [hr] at ha
        cases ha
        exact ⟨_, rfl, pyOrElse_ne_empty o "I don't know" (by decide)⟩

/-- Witness for C10: a runner succeeding with the empty final output on the
query "hi" is answered "I don't know". -/
theorem c10_witness :
    Main.ask_agent (fun _ => Except.ok (some "")) "hi"
      = AskResponse.answer (some "I don't know") :=
  (c10_fallback_nonempty_answer (fun _ => Except.ok (some "")) "hi").1
    (some "") rfl (Or.inr rfl) (by decide)
